import Mathlib

/-!
Shallow embedding of the notion-game synchronization script.

The repository synchronizes a Steam game library into a Notion database.
The reconciliation core lives in src/index.js (the destination index
builder notionAppIdMap, the per-item decision logic updateExistingGamePage
and createNewGamePage, and the driver loop syncSteamGamesToNotion) and in
src/steam.js (getGameAchievements, the achievement completion-rate
computation with its error collapsing).

Modelling conventions:
  - JavaScript numbers that hold identifiers and minute counts are
    embedded as Int; the achievement completion rate is embedded as the
    exact rational the quotient denotes.
  - Optional chaining that may produce undefined is embedded as Option;
    the strict JavaScript comparison a !== b on such values is equality
    on the Option type.
  - The remote achievement endpoint is embedded as a SteamResponse value
    describing the observable response; the body of getGameAchievements
    before its try/catch is an Except computation, and the catch collapses
    any error to the sentinel completion rate -1, exactly as the source.
  - The Notion write calls are represented by the data they would send;
    whether a write succeeds is an oracle parameter of the driver, since
    notion.js raises on non-success and index.js catches per item.
-/

namespace NotionGame

/-- Observable outcome of the GetPlayerAchievements HTTP exchange.
The ok constructor carries, for each achievement in
data.playerstats.achievements, its achieved flag (the source only ever
reads the achieved field, comparing it with 1). -/
inductive SteamResponse where
  | ok (achieved : List Int)
  | badRequest
  | httpError (status : Nat)
  | malformed
  | networkError
deriving DecidableEq, Repr

/-- Return value of getGameAchievements in src/steam.js: the achievements
list (projected to the achieved flags) and the completion rate, where -1
is the sentinel for games without achievement data. -/
structure AchResult where
  achievements : List Int
  completionRate : ℚ
deriving DecidableEq, Repr

/-- Body of getGameAchievements (src/steam.js lines 56-90), the part inside
the try block. A thrown error is Except.error: the non-400 HTTP failure
throws, and a network or parsing failure rejects. A 400 response and a
2xx response without an achievements array return the sentinel directly;
a 2xx response with an empty list returns the sentinel; otherwise the
rate is achievedCount divided by totalAchievements. -/
def getGameAchievementsBody : SteamResponse → Except Unit AchResult
  | SteamResponse.badRequest => Except.ok ⟨[], -1⟩
  | SteamResponse.httpError _ => Except.error ()
  | SteamResponse.networkError => Except.error ()
  | SteamResponse.malformed => Except.ok ⟨[], -1⟩
  | SteamResponse.ok achieved =>
      if achieved.length = 0 then Except.ok ⟨[], -1⟩
      else
        Except.ok ⟨achieved,
          ((achieved.filter (fun a => a == 1)).length : ℚ) / (achieved.length : ℚ)⟩

/-- getGameAchievements (src/steam.js lines 53-96): the try body with the
catch block that collapses every thrown or rejected error to the sentinel
result, so the function never raises to its caller. -/
def getGameAchievements (resp : SteamResponse) : AchResult :=
  match getGameAchievementsBody resp with
  | Except.ok r => r
  | Except.error _ => ⟨[], -1⟩

/-- A game record from the Steam owned-games response, restricted to the
fields the sync reads: appid, name, playtime_forever (minutes). -/
structure Game where
  appid : Int
  name : String
  playtime_forever : Int
deriving DecidableEq, Repr

/-- Property set of a Notion page as the sync reads it through optional
chaining: appid is page.properties.appid.number, name is the content of
the first title fragment, play_time and achievement are numbers. Each is
Option because any step of the chain may be undefined. The extra field
stands for any unrelated properties on the page, which the sync never
reads or writes (Notion partial updates leave them untouched). -/
structure PageProps where
  appid : Option Int
  name : Option String
  play_time : Option Int
  achievement : Option ℚ
  extra : List (String × ℚ)
deriving DecidableEq, Repr

/-- A Notion page: its page id together with its properties. -/
structure NotionPage where
  id : String
  properties : PageProps
deriving DecidableEq, Repr

/-- The propertiesToUpdate object built by updateExistingGamePage: at most
the three keys name, play_time and achievement, each present exactly when
the corresponding branch staged it. -/
structure PropertyDelta where
  name : Option String
  play_time : Option Int
  achievement : Option ℚ
deriving DecidableEq, Repr

/-- The empty propertiesToUpdate object (no keys staged). -/
def emptyDelta : PropertyDelta := ⟨none, none, none⟩

/-- Keys of the propertiesToUpdate object, in the insertion order of the
source (name, then play_time, then achievement). -/
def PropertyDelta.keys (d : PropertyDelta) : List String :=
  (if d.name.isSome then ["name"] else []) ++
    (if d.play_time.isSome then ["play_time"] else []) ++
      (if d.achievement.isSome then ["achievement"] else [])

/-- updateExistingGamePage (src/index.js lines 114-139) as the delta it
stages, paired with whether the achievement fetch was performed. The name
is staged when the stored title content differs from game.name; when the
stored play_time differs from game.playtime_forever, play_time is staged,
getGameAchievements is awaited, and achievement is staged exactly when the
returned rate is not the sentinel -1 and differs from the stored
achievement number. -/
def updateExistingGamePage (resp : SteamResponse) (game : Game) (page : NotionPage) :
    PropertyDelta × Bool :=
  let props := page.properties
  let d1 : PropertyDelta :=
    if props.name ≠ some game.name then
      { emptyDelta with name := some game.name }
    else emptyDelta
  if props.play_time ≠ some game.playtime_forever then
    let d2 := { d1 with play_time := some game.playtime_forever }
    let rate := (getGameAchievements resp).completionRate
    let d3 :=
      if rate ≠ -1 ∧ props.achievement ≠ some rate then
        { d2 with achievement := some rate }
      else d2
    (d3, true)
  else (d1, false)

/-- The page data createNewGamePage sends to notion.createPage: the
initial property set and the external cover URL. -/
structure CreateData where
  appid : Int
  name : String
  play_time : Int
  achievement : Option ℚ
  cover : String
deriving DecidableEq, Repr

/-- createNewGamePage (src/index.js lines 146-171) as the data it sends,
paired with the fetch flag (the achievement fetch is awaited
unconditionally before the property set is built). The achievement
property is added only when the completion rate is not the sentinel -1,
and the cover is the fixed steamstatic header URL for game.appid. -/
def createNewGamePage (resp : SteamResponse) (game : Game) : CreateData × Bool :=
  let rate := (getGameAchievements resp).completionRate
  ({ appid := game.appid
     name := game.name
     play_time := game.playtime_forever
     achievement := if rate ≠ -1 then some rate else none
     cover := "https://cdn.akamai.steamstatic.com/steam/apps/" ++
       toString game.appid ++ "/header.jpg" }, true)

/-- One step of the reduce that builds notionAppIdMap (src/index.js lines
80-86): read page.properties.appid.number through optional chaining; the
JavaScript truthiness guard keeps the map unchanged when the value is
absent or 0, and otherwise overwrites the entry at that key. -/
def appIdStep (m : Int → Option NotionPage) (page : NotionPage) :
    Int → Option NotionPage :=
  match page.properties.appid with
  | some a => if a = 0 then m else fun k => if k = a then some page else m k
  | none => m

/-- notionAppIdMap: the lookup map from appid to Notion page, built by a
left fold over the page list starting from the empty map. -/
def notionAppIdMap (pages : List NotionPage) : Int → Option NotionPage :=
  pages.foldl appIdStep (fun _ => none)

/-- The decision the sync loop takes for one Steam game (src/index.js
lines 89-103 together with the empty-delta guard of lines 135-138): an
existing page with an empty delta issues no write, a non-empty delta is
sent to notion.updatePage for that page id, and a game without an
existing page is sent to notion.createPage. -/
inductive SyncAction where
  | create (data : CreateData)
  | update (pageId : String) (delta : PropertyDelta)
  | skip
deriving DecidableEq, Repr

/-- The action chosen for one game given the lookup map. -/
def syncItem (resp : SteamResponse) (idx : Int → Option NotionPage) (game : Game) :
    SyncAction :=
  match idx game.appid with
  | some page =>
      let r := updateExistingGamePage resp game page
      if r.1 = emptyDelta then SyncAction.skip else SyncAction.update page.id r.1
  | none => SyncAction.create (createNewGamePage resp game).1

/-- Outcome of processing one game in the driver loop: skipped (empty
delta, no write attempted), updated or created (the write succeeded), or
failed (the Notion write raised and the per-item catch logged it). -/
inductive ItemOutcome where
  | created (data : CreateData)
  | updated (pageId : String) (delta : PropertyDelta)
  | skipped
  | failed
deriving DecidableEq, Repr

/-- Execute one item: the chosen action, with the write-failure oracle
standing for notion.updatePage or notion.createPage raising (the
achievement fetch itself never raises, so the per-item catch only ever
sees write failures). -/
def runItem (resp : SteamResponse) (writeFails : Bool)
    (idx : Int → Option NotionPage) (game : Game) : ItemOutcome :=
  match syncItem resp idx game with
  | SyncAction.skip => ItemOutcome.skipped
  | SyncAction.update pid d =>
      if writeFails then ItemOutcome.failed else ItemOutcome.updated pid d
  | SyncAction.create data =>
      if writeFails then ItemOutcome.failed else ItemOutcome.created data

/-- syncSteamGamesToNotion (src/index.js lines 67-106) after the two bulk
fetches: build the lookup map, then process every game of the catalog in
order, each item wrapped so that a failure records an outcome and the
loop continues. achResp gives the achievement endpoint response per
appid and writeFails the write-failure oracle per appid. -/
def syncSteamGamesToNotion (achResp : Int → SteamResponse)
    (writeFails : Int → Bool) (games : List Game) (pages : List NotionPage) :
    List (Int × ItemOutcome) :=
  let idx := notionAppIdMap pages
  games.map fun g => (g.appid, runItem (achResp g.appid) (writeFails g.appid) idx g)

/-- Effect of a Notion partial update on a page: properties present in
the delta are overwritten, all others (appid, the unrelated extras) and
the page id are untouched. -/
def applyDelta (page : NotionPage) (d : PropertyDelta) : NotionPage :=
  { id := page.id
    properties :=
      { appid := page.properties.appid
        name := match d.name with
          | some s => some s
          | none => page.properties.name
        play_time := match d.play_time with
          | some n => some n
          | none => page.properties.play_time
        achievement := match d.achievement with
          | some q => some q
          | none => page.properties.achievement
        extra := page.properties.extra } }

/-- C5: the achievement ratio computation maps an empty flag list to the
unknown sentinel, and a non-empty list of total count n with k achieved
flags to the exact rational k / n, which lies in [0, 1]; in particular
4 total with 3 achieved yields exactly 0.75. -/
theorem c5_achievement_ratio (flags : List Int) :
    (flags.length = 0 →
      getGameAchievements (SteamResponse.ok flags) = ⟨[], -1⟩)
    ∧ (flags.length ≠ 0 →
        (getGameAchievements (SteamResponse.ok flags)).completionRate
            = ((flags.filter (fun a => a == 1)).length : ℚ) / (flags.length : ℚ)
          ∧ 0 ≤ (getGameAchievements (SteamResponse.ok flags)).completionRate
          ∧ (getGameAchievements (SteamResponse.ok flags)).completionRate ≤ 1)
    ∧ (getGameAchievements (SteamResponse.ok [1, 1, 1, 0])).completionRate
        = 3 / 4 := by
  have key : ∀ l : List Int, l.length ≠ 0 →
      (getGameAchievements (SteamResponse.ok l)).completionRate
        = ((l.filter (fun a => a == 1)).length : ℚ) / (l.length : ℚ) := by
    intro l hl
    simp [getGameAchievements, getGameAchievementsBody, hl]
  refine ⟨fun h => by simp [getGameAchievements, getGameAchievementsBody, h],
    fun h => ?_, ?_⟩
  · have hpos : (0 : ℚ) < (flags.length : ℚ) := by
      exact_mod_cast Nat.pos_of_ne_zero h
    refine ⟨key flags h, ?_, ?_⟩
    · rw [key flags h]; positivity
    · rw [key flags h]
      apply div_le_one_of_le₀ _ (le_of_lt hpos)
      exact_mod_cast List.length_filter_le _ _
  · rw [key [1, 1, 1, 0] (by decide),
      show (([1, 1, 1, 0] : List Int).filter (fun a => a == 1)) = [1, 1, 1] from rfl]
    norm_num

/-- C7: the achievement fetch never raises to its caller: a 400 response,
any other non-success status, a malformed body and a network or parsing
failure all collapse to the sentinel result; consequently a failing fetch
cannot block the staging of the playtime or title change in
updateExistingGamePage. -/
theorem c7_achievement_fetch_never_raises :
    getGameAchievements SteamResponse.badRequest = ⟨[], -1⟩
    ∧ getGameAchievements SteamResponse.networkError = ⟨[], -1⟩
    ∧ (∀ s : Nat, getGameAchievements (SteamResponse.httpError s) = ⟨[], -1⟩)
    ∧ getGameAchievements SteamResponse.malformed = ⟨[], -1⟩
    ∧ (∀ (resp : SteamResponse) (game : Game) (page : NotionPage),
        page.properties.play_time ≠ some game.playtime_forever →
          (updateExistingGamePage resp game page).1.play_time
            = some game.playtime_forever)
    ∧ (∀ (resp : SteamResponse) (game : Game) (page : NotionPage),
        page.properties.name ≠ some game.name →
          (updateExistingGamePage resp game page).1.name = some game.name) := by
  refine ⟨rfl, rfl, fun s => rfl, rfl, ?_, ?_⟩
  · intro resp game page h
    simp only [updateExistingGamePage, if_pos h]
    split <;> simp
  · intro resp game page h
    simp only [updateExistingGamePage]
    split
    · split <;> simp [if_pos h, emptyDelta]
    · simp [if_pos h, emptyDelta]

/-- C1: for a matched item whose stored play_time equals the game's
playtime_forever, the achievement fetch is never performed, and when only
the title differs the staged delta contains exactly the name field. -/
theorem c1_unchanged_playtime_skips_fetch (resp : SteamResponse) (game : Game)
    (page : NotionPage)
    (h : page.properties.play_time = some game.playtime_forever) :
    (updateExistingGamePage resp game page).2 = false
    ∧ (page.properties.name ≠ some game.name →
        (updateExistingGamePage resp game page).1
          = { name := some game.name, play_time := none, achievement := none }) := by
  constructor
  · simp [updateExistingGamePage, h]
  · intro hn
    simp [updateExistingGamePage, h, hn, emptyDelta]

/-- Witness for C1 at a concrete input: appid 10, playtime 120 unchanged,
title changed from Old to Game A. -/
theorem c1_unchanged_playtime_skips_fetch_witness :
    (updateExistingGamePage SteamResponse.networkError ⟨10, "Game A", 120⟩
        ⟨"pg", ⟨some 10, some "Old", some 120, none, []⟩⟩).2 = false
    ∧ (updateExistingGamePage SteamResponse.networkError ⟨10, "Game A", 120⟩
        ⟨"pg", ⟨some 10, some "Old", some 120, none, []⟩⟩).1
      = ⟨some "Game A", none, none⟩ := by
  have h := c1_unchanged_playtime_skips_fetch SteamResponse.networkError
    ⟨10, "Game A", 120⟩ ⟨"pg", ⟨some 10, some "Old", some 120, none, []⟩⟩ rfl
  exact ⟨h.1, h.2 (by decide)⟩

/-- C2: for a matched item whose stored play_time differs, the fetch is
performed, and achievement is staged exactly when the fetched rate is not
the sentinel -1 and differs from the stored achievement value; a sentinel
rate stages nothing, and a missing stored value with a fetched rate of 0
stages 0. -/
theorem c2_changed_playtime_achievement_delta (resp : SteamResponse)
    (game : Game) (page : NotionPage)
    (h : page.properties.play_time ≠ some game.playtime_forever) :
    (updateExistingGamePage resp game page).2 = true
    ∧ (updateExistingGamePage resp game page).1.achievement
        = (if (getGameAchievements resp).completionRate ≠ -1
              ∧ page.properties.achievement
                  ≠ some (getGameAchievements resp).completionRate
           then some (getGameAchievements resp).completionRate else none)
    ∧ ((getGameAchievements resp).completionRate = -1 →
        (updateExistingGamePage resp game page).1.achievement = none)
    ∧ (page.properties.achievement = none →
        (getGameAchievements resp).completionRate = 0 →
          (updateExistingGamePage resp game page).1.achievement = some 0) := by
  have main : (updateExistingGamePage resp game page).1.achievement
      = (if (getGameAchievements resp).completionRate ≠ -1
            ∧ page.properties.achievement
                ≠ some (getGameAchievements resp).completionRate
         then some (getGameAchievements resp).completionRate else none) := by
    by_cases hc : (getGameAchievements resp).completionRate ≠ -1
        ∧ page.properties.achievement
            ≠ some (getGameAchievements resp).completionRate <;>
      by_cases hn : page.properties.name = some game.name <;>
        simp [updateExistingGamePage, h, hc, hn, emptyDelta]
  refine ⟨by simp [updateExistingGamePage, h], main, ?_, ?_⟩
  · intro hs
    rw [main]
    simp [hs]
  · intro ha h0
    rw [main, h0, ha]
    norm_num

/-- Witness for C2 at a concrete input: playtime changed from 300 to 500,
no stored achievement, fetched flags [0, 0] give rate 0, so achievement 0
is staged. -/
theorem c2_changed_playtime_achievement_delta_witness :
    (updateExistingGamePage (SteamResponse.ok [0, 0]) ⟨20, "Game B", 500⟩
        ⟨"pb", ⟨some 20, some "Game B", some 300, none, []⟩⟩).2 = true
    ∧ (updateExistingGamePage (SteamResponse.ok [0, 0]) ⟨20, "Game B", 500⟩
        ⟨"pb", ⟨some 20, some "Game B", some 300, none, []⟩⟩).1.achievement
      = some 0 := by
  have hrate : (getGameAchievements (SteamResponse.ok [0, 0])).completionRate
      = 0 := by
    have : (([0, 0] : List Int).filter (fun a => a == 1)) = [] := rfl
    simp [getGameAchievements, getGameAchievementsBody, this]
  have h := c2_changed_playtime_achievement_delta (SteamResponse.ok [0, 0])
    ⟨20, "Game B", 500⟩ ⟨"pb", ⟨some 20, some "Game B", some 300, none, []⟩⟩
    (by decide)
  exact ⟨h.1, h.2.2.2 rfl hrate⟩

/-- C3: for a game without a destination match the decision is exactly one
create; the achievement fetch is performed unconditionally, the property
set carries appid, name and play_time, achievement is present exactly when
the fetched rate is not the sentinel -1, and the cover is the fixed
steamstatic header URL for the appid. -/
theorem c3_unmatched_creates_full_record (resp : SteamResponse)
    (idx : Int → Option NotionPage) (game : Game)
    (h : idx game.appid = none) :
    syncItem resp idx game = SyncAction.create (createNewGamePage resp game).1
    ∧ (createNewGamePage resp game).2 = true
    ∧ (createNewGamePage resp game).1.appid = game.appid
    ∧ (createNewGamePage resp game).1.name = game.name
    ∧ (createNewGamePage resp game).1.play_time = game.playtime_forever
    ∧ (createNewGamePage resp game).1.achievement
        = (if (getGameAchievements resp).completionRate ≠ -1
           then some (getGameAchievements resp).completionRate else none)
    ∧ (createNewGamePage resp game).1.cover
        = "https://cdn.akamai.steamstatic.com/steam/apps/"
            ++ toString game.appid ++ "/header.jpg" := by
  refine ⟨?_, rfl, rfl, rfl, rfl, rfl, rfl⟩
  simp [syncItem, h]

/-- Witness for C3 at a concrete input: appid 10, empty destination set,
a 400 response gives the sentinel rate so no achievement property. -/
theorem c3_unmatched_creates_full_record_witness :
    syncItem SteamResponse.badRequest (notionAppIdMap []) ⟨10, "Game A", 120⟩
      = SyncAction.create
          (createNewGamePage SteamResponse.badRequest ⟨10, "Game A", 120⟩).1
    ∧ (createNewGamePage SteamResponse.badRequest ⟨10, "Game A", 120⟩).1.achievement
      = none
    ∧ (createNewGamePage SteamResponse.badRequest ⟨10, "Game A", 120⟩).1.cover
      = "https://cdn.akamai.steamstatic.com/steam/apps/10/header.jpg" := by
  have h := c3_unmatched_creates_full_record SteamResponse.badRequest
    (notionAppIdMap []) ⟨10, "Game A", 120⟩ rfl
  refine ⟨h.1, ?_, ?_⟩
  · rw [h.2.2.2.2.2.1]
    norm_num [getGameAchievements, getGameAchievementsBody]
  · rw [h.2.2.2.2.2.2]
    rfl

/-- C4: for a matched item with title and playtime unchanged the computed
delta is empty and the decision is a skip (no write); moreover a second
reconciliation of the same game against the page produced by applying the
first delta always yields the empty delta with no fetch (idempotence). -/
theorem c4_unchanged_empty_delta_idempotent (resp resp2 : SteamResponse)
    (game : Game) (page : NotionPage) (idx : Int → Option NotionPage)
    (hn : page.properties.name = some game.name)
    (hp : page.properties.play_time = some game.playtime_forever) :
    updateExistingGamePage resp game page = (emptyDelta, false)
    ∧ (idx game.appid = some page → syncItem resp idx game = SyncAction.skip)
    ∧ (∀ q : NotionPage,
        updateExistingGamePage resp2 game
            (applyDelta q (updateExistingGamePage resp game q).1)
          = (emptyDelta, false)) := by
  have first : updateExistingGamePage resp game page = (emptyDelta, false) := by
    simp [updateExistingGamePage, hn, hp, emptyDelta]
  refine ⟨first, ?_, ?_⟩
  · intro hm
    simp [syncItem, hm, first]
  · intro q
    by_cases hqn : q.properties.name = some game.name <;>
      by_cases hqp : q.properties.play_time = some game.playtime_forever <;>
        by_cases hqa : ((getGameAchievements resp).completionRate ≠ -1
            ∧ q.properties.achievement
                ≠ some (getGameAchievements resp).completionRate) <;>
          simp [updateExistingGamePage, applyDelta, hqn, hqp, hqa, emptyDelta]

/-- Witness for C4 at a concrete input: appid 7, identical page, the
decision is a skip and the delta stays empty on a second pass. -/
theorem c4_unchanged_empty_delta_idempotent_witness :
    updateExistingGamePage SteamResponse.badRequest ⟨7, "G", 50⟩
        ⟨"pp", ⟨some 7, some "G", some 50, none, []⟩⟩ = (emptyDelta, false)
    ∧ syncItem SteamResponse.badRequest
        (notionAppIdMap [⟨"pp", ⟨some 7, some "G", some 50, none, []⟩⟩])
        ⟨7, "G", 50⟩
      = SyncAction.skip := by
  have h := c4_unchanged_empty_delta_idempotent SteamResponse.badRequest
    SteamResponse.badRequest ⟨7, "G", 50⟩
    ⟨"pp", ⟨some 7, some "G", some 50, none, []⟩⟩
    (notionAppIdMap [⟨"pp", ⟨some 7, some "G", some 50, none, []⟩⟩]) rfl rfl
  exact ⟨h.1, h.2.1 rfl⟩

/-- Characterization of the fold that builds notionAppIdMap: looking up k
after folding any prefix returns the last page of that prefix whose appid
property is the nonzero value k, and falls back to the accumulator. -/
theorem foldl_appIdStep_lookup (pages : List NotionPage)
    (m : Int → Option NotionPage) (k : Int) :
    (pages.foldl appIdStep m) k
      = (pages.reverse.find?
          (fun p => decide (p.properties.appid = some k) && decide (k ≠ 0))).elim
          (m k) some := by
  induction pages using List.reverseRecOn generalizing m with
  | nil => rfl
  | append_singleton ps p ih =>
      rw [List.foldl_append, List.foldl_cons, List.foldl_nil]
      have hrev : (ps ++ [p]).reverse = p :: ps.reverse := by
        rw [List.reverse_append]
        rfl
      rw [hrev]
      by_cases hp : p.properties.appid = some k ∧ k ≠ 0
      · rw [List.find?_cons_of_pos _ (by simp [hp.1, hp.2])]
        have hsome : appIdStep (List.foldl appIdStep m ps) p k = some p := by
          unfold appIdStep
          rw [hp.1]
          have hk0 : ¬ k = 0 := hp.2
          simp [hk0]
        rw [hsome]
        rfl
      · have hcond : (decide (p.properties.appid = some k)
            && decide (k ≠ 0)) = false := by
          rcases not_and_or.mp hp with h | h <;> simp [h]
        rw [List.find?_cons, hcond]
        have hstep : appIdStep (List.foldl appIdStep m ps) p k
            = (List.foldl appIdStep m ps) k := by
          unfold appIdStep
          cases ha : p.properties.appid with
          | none => rfl
          | some a =>
              by_cases ha0 : a = 0
              · simp [ha0]
              · have hka : ¬ k = a := by
                  intro hka
                  refine hp ⟨by rw [ha, hka], fun h0 => ha0 ?_⟩
                  rw [← hka, h0]
                simp [ha0, hka]
        rw [hstep, ih]

/-- C6 counterexample: a destination record whose identifier property is
present with value 0 is skipped by the index builder, so the claim that
every present identifier is inserted fails at this input. -/
theorem c6_counterexample_zero_identifier_present_but_skipped :
    (({ id := "p0", properties :=
        { appid := some 0, name := some "Z", play_time := some 1,
          achievement := none, extra := [] } } : NotionPage)).properties.appid
      = some 0
    ∧ notionAppIdMap
        [{ id := "p0", properties :=
            { appid := some 0, name := some "Z", play_time := some 1,
              achievement := none, extra := [] } }] 0 = none :=
  ⟨rfl, rfl⟩

/-- C6 amended: the index builder skips a record whose identifier property
is absent or equal to 0 (the membership guard is JavaScript truthiness),
inserts or overwrites the entry when the identifier is present and
nonzero, and on duplicates the last record in sequence order wins: the
lookup at k is exactly the last record whose identifier property is the
nonzero value k. -/
theorem c6_amended_index_builder (pages : List NotionPage) (k : Int) :
    notionAppIdMap pages k
      = pages.reverse.find?
          (fun p => decide (p.properties.appid = some k) && decide (k ≠ 0)) := by
  rw [notionAppIdMap, foldl_appIdStep_lookup]
  cases pages.reverse.find?
      (fun p => decide (p.properties.appid = some k) && decide (k ≠ 0)) <;> rfl

/-- C10: the index builder never maps the key 0, so a source item with
identifier 0 is always classified as a create, even when a destination
record carrying identifier 0 exists. -/
theorem c10_zero_identifier_always_create (pages : List NotionPage)
    (resp : SteamResponse) (game : Game) (h : game.appid = 0) :
    notionAppIdMap pages 0 = none
    ∧ syncItem resp (notionAppIdMap pages) game
        = SyncAction.create (createNewGamePage resp game).1 := by
  have hmap : notionAppIdMap pages 0 = none := by
    rw [notionAppIdMap, foldl_appIdStep_lookup]
    have hfind : pages.reverse.find?
        (fun p => decide (p.properties.appid = some (0 : Int))
          && decide ((0 : Int) ≠ 0)) = none := by
      apply List.find?_eq_none.mpr
      intro p hp
      simp
    rw [hfind]
    rfl
  refine ⟨hmap, ?_⟩
  simp [syncItem, h, hmap]

/-- Witness for C10 at a concrete input: the destination set holds a
record with identifier 0, yet the item with identifier 0 is created. -/
theorem c10_zero_identifier_always_create_witness :
    notionAppIdMap [⟨"z", ⟨some 0, some "Zero", some 5, none, []⟩⟩] 0 = none
    ∧ syncItem SteamResponse.badRequest
        (notionAppIdMap [⟨"z", ⟨some 0, some "Zero", some 5, none, []⟩⟩])
        ⟨0, "Zero", 5⟩
      = SyncAction.create
          (createNewGamePage SteamResponse.badRequest ⟨0, "Zero", 5⟩).1 :=
  c10_zero_identifier_always_create _ SteamResponse.badRequest _ rfl

/-- C8 counterexample: with a source item identical to its matched
destination record and the achievement endpoint unreachable, the run
records the item as skipped, not as a failure, and still processes the
remaining item; so the claim that the item is logged as a failure fails
at this input. -/
theorem c8_counterexample_identical_item_is_skipped_not_failed :
    syncSteamGamesToNotion (fun _ => SteamResponse.networkError)
        (fun _ => false)
        [⟨20, "Game B", 300⟩, ⟨10, "Game A", 120⟩]
        [⟨"pb", ⟨some 20, some "Game B", some 300, none, []⟩⟩]
      = [(20, ItemOutcome.skipped),
         (10, ItemOutcome.created
           ⟨10, "Game A", 120, none,
             "https://cdn.akamai.steamstatic.com/steam/apps/10/header.jpg"⟩)]
    ∧ ItemOutcome.skipped ≠ ItemOutcome.failed := by
  constructor
  · rfl
  · intro h
    cases h

/-- C8 amended: with a source item identical to its matched destination
record, the achievement endpoint is never contacted for it (and an
unreachable endpoint would collapse to the sentinel without raising
anyway), so the item is skipped with no write attempted and no failure
recorded, and the run still processes every item of the catalog. -/
theorem c8_amended_identical_item_skipped_run_continues (wf : Bool)
    (idx : Int → Option NotionPage) (game : Game) (page : NotionPage)
    (hm : idx game.appid = some page)
    (hn : page.properties.name = some game.name)
    (hp : page.properties.play_time = some game.playtime_forever) :
    runItem SteamResponse.networkError wf idx game = ItemOutcome.skipped
    ∧ (updateExistingGamePage SteamResponse.networkError game page).2 = false
    ∧ (∀ (achResp : Int → SteamResponse) (wfs : Int → Bool)
        (games : List Game) (pages : List NotionPage),
          (syncSteamGamesToNotion achResp wfs games pages).length
            = games.length) := by
  have hupd : updateExistingGamePage SteamResponse.networkError game page
      = (emptyDelta, false) := by
    simp [updateExistingGamePage, hn, hp, emptyDelta]
  refine ⟨?_, by rw [hupd], ?_⟩
  · simp [runItem, syncItem, hm, hupd]
  · intro achResp wfs games pages
    simp [syncSteamGamesToNotion]

/-- Witness for the amended C8 at a concrete input: the identical item
with appid 20 is skipped while the endpoint is unreachable. -/
theorem c8_amended_identical_item_skipped_run_continues_witness :
    runItem SteamResponse.networkError false
        (notionAppIdMap [⟨"pb", ⟨some 20, some "Game B", some 300, none, []⟩⟩])
        ⟨20, "Game B", 300⟩
      = ItemOutcome.skipped
    ∧ (updateExistingGamePage SteamResponse.networkError ⟨20, "Game B", 300⟩
        ⟨"pb", ⟨some 20, some "Game B", some 300, none, []⟩⟩).2 = false :=
  have h := c8_amended_identical_item_skipped_run_continues false
    (notionAppIdMap [⟨"pb", ⟨some 20, some "Game B", some 300, none, []⟩⟩])
    ⟨20, "Game B", 300⟩
    ⟨"pb", ⟨some 20, some "Game B", some 300, none, []⟩⟩ rfl rfl rfl
  ⟨h.1, h.2.1⟩

/-- C9: the staged delta only ever carries the keys name, play_time and
achievement, never appid; applying an update to the matched page leaves
the page id, the appid property and every unrelated property untouched,
and every property not present in the delta keeps its value. -/
theorem c9_update_touches_only_delta_keys (resp : SteamResponse)
    (game : Game) (page : NotionPage) :
    (∀ k ∈ (updateExistingGamePage resp game page).1.keys,
        k ∈ (["name", "play_time", "achievement"] : List String))
    ∧ "appid" ∉ (updateExistingGamePage resp game page).1.keys
    ∧ (applyDelta page (updateExistingGamePage resp game page).1).id = page.id
    ∧ (applyDelta page (updateExistingGamePage resp game page).1).properties.appid
        = page.properties.appid
    ∧ (applyDelta page (updateExistingGamePage resp game page).1).properties.extra
        = page.properties.extra
    ∧ ((updateExistingGamePage resp game page).1.name = none →
        (applyDelta page (updateExistingGamePage resp game page).1).properties.name
          = page.properties.name)
    ∧ ((updateExistingGamePage resp game page).1.play_time = none →
        (applyDelta page
            (updateExistingGamePage resp game page).1).properties.play_time
          = page.properties.play_time)
    ∧ ((updateExistingGamePage resp game page).1.achievement = none →
        (applyDelta page
            (updateExistingGamePage resp game page).1).properties.achievement
          = page.properties.achievement) := by
  refine ⟨?_, ?_, rfl, rfl, rfl, ?_, ?_, ?_⟩
  · intro k hk
    rcases hdn : (updateExistingGamePage resp game page).1.name with _ | v <;>
      rcases hdp : (updateExistingGamePage resp game page).1.play_time
          with _ | w <;>
        rcases hda : (updateExistingGamePage resp game page).1.achievement
            with _ | x <;>
          simp_all [PropertyDelta.keys] <;> tauto
  · rcases hdn : (updateExistingGamePage resp game page).1.name with _ | v <;>
      rcases hdp : (updateExistingGamePage resp game page).1.play_time
          with _ | w <;>
        rcases hda : (updateExistingGamePage resp game page).1.achievement
            with _ | x <;>
          simp [PropertyDelta.keys, hdn, hdp, hda]
  · intro hd
    simp [applyDelta, hd]
  · intro hd
    simp [applyDelta, hd]
  · intro hd
    simp [applyDelta, hd]

end NotionGame
